import Mathlib

/-! Verification of the product pricing calculator engine.

The embedding follows the repository's sources:
  - data model: src/types.ts
  - pricing engine: src/hooks/useProductCalculator.ts
  - catalog deletion with cascade: src/App.tsx (onDeleteMaterial)
  - display normalization: src/utils/currency.ts (formatCurrency)

Currency arithmetic is modelled over the rationals (exact arithmetic in
place of IEEE doubles); a second model in namespace Pricing.JS carries
IEEE-style special values (NaN, infinities) and is used to settle the
claims about non-finite inputs. -/

namespace Pricing

/-- Material catalog entry (src/types.ts, interface Material). -/
structure Material where
  id : String
  sku : String
  name : String
  supplier : String
  totalCost : ℚ
  qty : ℚ
  unitOfMeasurement : String
  unitPrice : ℚ
deriving DecidableEq, Repr

/-- The two pricing strategies (src/types.ts, type CalculationMode). -/
inductive CalculationMode where
  | margin
  | price
deriving DecidableEq, Repr

/-- A row of the material or packaging cost table
(src/types.ts, interface ProductMaterialRow). -/
structure ProductMaterialRow where
  id : String
  materialId : Option String
  qty : ℚ
deriving DecidableEq, Repr

/-- A row of the labor cost table (src/types.ts, interface LaborCostRow). -/
structure LaborCostRow where
  id : String
  taskName : String
  hours : ℚ
deriving DecidableEq, Repr

/-- A row of the other-fees table (src/types.ts, interface OtherFeeRow). -/
structure OtherFeeRow where
  id : String
  feeName : String
  qty : ℚ
  unit : String
  unitPrice : ℚ
deriving DecidableEq, Repr

/-- All user-configurable inputs for pricing one product
(src/types.ts, interface ProductInputs). -/
structure ProductInputs where
  productName : String
  hourlyLaborRate : ℚ
  materialCostRows : List ProductMaterialRow
  packagingCostRows : List ProductMaterialRow
  laborCostRows : List LaborCostRow
  otherFeeRows : List OtherFeeRow
  calculationMode : CalculationMode
  targetMargin : ℚ
  targetPrice : ℚ
  discount : ℚ
deriving DecidableEq, Repr

/-- The engine's output record (src/types.ts, interface CalculatedPricing). -/
structure CalculatedPricing where
  totalMaterialCost : ℚ
  totalPackagingCost : ℚ
  totalLaborCost : ℚ
  totalOtherFeesCost : ℚ
  totalBaseCost : ℚ
  finalPrice : ℚ
  requiredMargin : ℚ
  discountedPrice : ℚ
  profit : ℚ
deriving DecidableEq, Repr

/-- Unit-price resolution (useProductCalculator.ts, getMaterialPrice):
materials.find(m => m.id === id)?.unitPrice || 0. Over the rationals the
JS falsy-guard on the found price is the identity, so the resolved price
is the found unitPrice, and 0 when the id is null or unmatched. -/
def getMaterialPrice (materials : List Material) (id : Option String) : ℚ :=
  match materials.find? (fun m => some m.id == id) with
  | some m => m.unitPrice
  | none => 0

/-- The reduce over a material- or packaging-reference row list
(useProductCalculator.ts, lines 12-18). -/
def materialRowsCost (materials : List Material) (rows : List ProductMaterialRow) : ℚ :=
  rows.foldl (fun sum row => sum + getMaterialPrice materials row.materialId * row.qty) 0

/-- The reduce over the labor row list (useProductCalculator.ts, lines 20-22). -/
def laborRowsCost (hourlyLaborRate : ℚ) (rows : List LaborCostRow) : ℚ :=
  rows.foldl (fun sum row => sum + row.hours * hourlyLaborRate) 0

/-- The reduce over the other-fee row list (useProductCalculator.ts, lines 24-26). -/
def otherFeeRowsCost (rows : List OtherFeeRow) : ℚ :=
  rows.foldl (fun sum row => sum + row.qty * row.unitPrice) 0

/-- The pricing engine (src/hooks/useProductCalculator.ts). The two
assignments under the strategy branch are split into the two match
expressions below; everything else is a direct transcription. -/
def computePricing (productInputs : ProductInputs) (materials : List Material) :
    CalculatedPricing :=
  let totalMaterialCost := materialRowsCost materials productInputs.materialCostRows
  let totalPackagingCost := materialRowsCost materials productInputs.packagingCostRows
  let totalLaborCost := laborRowsCost productInputs.hourlyLaborRate productInputs.laborCostRows
  let totalOtherFeesCost := otherFeeRowsCost productInputs.otherFeeRows
  let totalBaseCost := totalMaterialCost + totalPackagingCost + totalLaborCost + totalOtherFeesCost
  let finalPrice :=
    match productInputs.calculationMode with
    | CalculationMode.margin =>
      let marginDecimal := productInputs.targetMargin / 100
      if marginDecimal < 1 then totalBaseCost / (1 - marginDecimal) else totalBaseCost
    | CalculationMode.price => productInputs.targetPrice
  let requiredMargin :=
    match productInputs.calculationMode with
    | CalculationMode.margin => productInputs.targetMargin
    | CalculationMode.price =>
      if finalPrice > 0 then ((finalPrice - totalBaseCost) / finalPrice) * 100 else 0
  let discountDecimal := productInputs.discount / 100
  let discountedPrice := finalPrice * (1 - discountDecimal)
  let profit := discountedPrice - totalBaseCost
  { totalMaterialCost := totalMaterialCost
    totalPackagingCost := totalPackagingCost
    totalLaborCost := totalLaborCost
    totalOtherFeesCost := totalOtherFeesCost
    totalBaseCost := totalBaseCost
    finalPrice := finalPrice
    requiredMargin := requiredMargin
    discountedPrice := discountedPrice
    profit := profit }

/-- Catalog deletion with cascading removal of referencing rows
(src/App.tsx, onDeleteMaterial). -/
def deleteMaterial (id : String) (materials : List Material) (productInputs : ProductInputs) :
    List Material × ProductInputs :=
  (materials.filter (fun m => m.id != id),
   { productInputs with
       materialCostRows := productInputs.materialCostRows.filter
         (fun row => row.materialId != some id)
       packagingCostRows := productInputs.packagingCostRows.filter
         (fun row => row.materialId != some id) })

namespace JS

/-- IEEE-style JavaScript number: a finite value (kept exact as a rational,
overflow not modelled), NaN, or a signed infinity; negative zero is not
distinguished from zero. This model carries exactly the special values the
non-finite-input claims are about. -/
inductive JSNum where
  | fin (q : ℚ)
  | nan
  | posInf
  | negInf
deriving DecidableEq, Repr

namespace JSNum

def isNaN : JSNum → Bool
  | nan => true
  | _ => false

def isFinite : JSNum → Bool
  | fin _ => true
  | _ => false

def neg : JSNum → JSNum
  | fin q => fin (-q)
  | nan => nan
  | posInf => negInf
  | negInf => posInf

def add : JSNum → JSNum → JSNum
  | nan, _ => nan
  | _, nan => nan
  | posInf, negInf => nan
  | negInf, posInf => nan
  | posInf, _ => posInf
  | _, posInf => posInf
  | negInf, _ => negInf
  | _, negInf => negInf
  | fin a, fin b => fin (a + b)

def mul : JSNum → JSNum → JSNum
  | nan, _ => nan
  | _, nan => nan
  | fin a, fin b => fin (a * b)
  | fin a, posInf => if a = 0 then nan else if 0 < a then posInf else negInf
  | fin a, negInf => if a = 0 then nan else if 0 < a then negInf else posInf
  | posInf, fin b => if b = 0 then nan else if 0 < b then posInf else negInf
  | negInf, fin b => if b = 0 then nan else if 0 < b then negInf else posInf
  | posInf, posInf => posInf
  | posInf, negInf => negInf
  | negInf, posInf => negInf
  | negInf, negInf => posInf

def div : JSNum → JSNum → JSNum
  | nan, _ => nan
  | _, nan => nan
  | posInf, posInf => nan
  | posInf, negInf => nan
  | negInf, posInf => nan
  | negInf, negInf => nan
  | posInf, fin b => if 0 ≤ b then posInf else negInf
  | negInf, fin b => if 0 ≤ b then negInf else posInf
  | fin _, posInf => fin 0
  | fin _, negInf => fin 0
  | fin a, fin b =>
    if b = 0 then (if a = 0 then nan else if 0 < a then posInf else negInf)
    else fin (a / b)

/-- The JavaScript comparison a < b: false whenever either side is NaN. -/
def ltb : JSNum → JSNum → Bool
  | nan, _ => false
  | _, nan => false
  | fin a, fin b => a < b
  | negInf, negInf => false
  | negInf, _ => true
  | _, negInf => false
  | posInf, _ => false
  | _, posInf => true

/-- The JavaScript comparison a > b. -/
def gtb (a b : JSNum) : Bool := ltb b a

/-- The JavaScript expression v || 0: 0 when v is falsy (0 or NaN),
otherwise v itself. -/
def orZero : JSNum → JSNum
  | nan => fin 0
  | fin q => if q = 0 then fin 0 else fin q
  | v => v

instance : Neg JSNum := ⟨neg⟩

instance : Add JSNum := ⟨add⟩

instance : Sub JSNum := ⟨fun a b => add a (neg b)⟩

instance : Mul JSNum := ⟨mul⟩

instance : Div JSNum := ⟨div⟩

instance (n : Nat) : OfNat JSNum n := ⟨fin (OfNat.ofNat n)⟩

end JSNum

/-- Material catalog entry with JavaScript-number fields. -/
structure Material where
  id : String
  sku : String
  name : String
  supplier : String
  totalCost : JSNum
  qty : JSNum
  unitOfMeasurement : String
  unitPrice : JSNum
deriving DecidableEq, Repr

structure ProductMaterialRow where
  id : String
  materialId : Option String
  qty : JSNum
deriving DecidableEq, Repr

structure LaborCostRow where
  id : String
  taskName : String
  hours : JSNum
deriving DecidableEq, Repr

structure OtherFeeRow where
  id : String
  feeName : String
  qty : JSNum
  unit : String
  unitPrice : JSNum
deriving DecidableEq, Repr

structure ProductInputs where
  productName : String
  hourlyLaborRate : JSNum
  materialCostRows : List ProductMaterialRow
  packagingCostRows : List ProductMaterialRow
  laborCostRows : List LaborCostRow
  otherFeeRows : List OtherFeeRow
  calculationMode : CalculationMode
  targetMargin : JSNum
  targetPrice : JSNum
  discount : JSNum
deriving DecidableEq, Repr

structure CalculatedPricing where
  totalMaterialCost : JSNum
  totalPackagingCost : JSNum
  totalLaborCost : JSNum
  totalOtherFeesCost : JSNum
  totalBaseCost : JSNum
  finalPrice : JSNum
  requiredMargin : JSNum
  discountedPrice : JSNum
  profit : JSNum
deriving DecidableEq, Repr

/-- getMaterialPrice over JavaScript numbers: the found unitPrice passes
through the falsy-guard || 0, and an unresolved reference yields 0. -/
def getMaterialPrice (materials : List Material) (id : Option String) : JSNum :=
  JSNum.orZero
    (match materials.find? (fun m => some m.id == id) with
     | some m => m.unitPrice
     | none => JSNum.fin 0)

/-- The pricing engine over JavaScript numbers: the same transcription of
src/hooks/useProductCalculator.ts as Pricing.computePricing, with the
comparisons reading as JavaScript comparisons (false on NaN). -/
def computePricing (productInputs : ProductInputs) (materials : List Material) :
    CalculatedPricing :=
  let totalMaterialCost := productInputs.materialCostRows.foldl
    (fun sum row => sum + getMaterialPrice materials row.materialId * row.qty) 0
  let totalPackagingCost := productInputs.packagingCostRows.foldl
    (fun sum row => sum + getMaterialPrice materials row.materialId * row.qty) 0
  let totalLaborCost := productInputs.laborCostRows.foldl
    (fun sum row => sum + row.hours * productInputs.hourlyLaborRate) 0
  let totalOtherFeesCost := productInputs.otherFeeRows.foldl
    (fun sum row => sum + row.qty * row.unitPrice) 0
  let totalBaseCost := totalMaterialCost + totalPackagingCost + totalLaborCost + totalOtherFeesCost
  let finalPrice :=
    match productInputs.calculationMode with
    | CalculationMode.margin =>
      let marginDecimal := productInputs.targetMargin / 100
      if JSNum.ltb marginDecimal 1 then totalBaseCost / (1 - marginDecimal) else totalBaseCost
    | CalculationMode.price => productInputs.targetPrice
  let requiredMargin :=
    match productInputs.calculationMode with
    | CalculationMode.margin => productInputs.targetMargin
    | CalculationMode.price =>
      if JSNum.gtb finalPrice 0 then ((finalPrice - totalBaseCost) / finalPrice) * 100 else 0
  let discountDecimal := productInputs.discount / 100
  let discountedPrice := finalPrice * (1 - discountDecimal)
  let profit := discountedPrice - totalBaseCost
  { totalMaterialCost := totalMaterialCost
    totalPackagingCost := totalPackagingCost
    totalLaborCost := totalLaborCost
    totalOtherFeesCost := totalOtherFeesCost
    totalBaseCost := totalBaseCost
    finalPrice := finalPrice
    requiredMargin := requiredMargin
    discountedPrice := discountedPrice
    profit := profit }

/-- The numeric normalization performed by formatCurrency
(src/utils/currency.ts): a NaN or non-finite value is replaced by 0 before
formatting; the Intl string rendering itself is not modelled. -/
def formatCurrencyValue (value : JSNum) : JSNum :=
  if value.isNaN || !value.isFinite then 0 else value

end JS

end Pricing

section Development

open Pricing

/-- Catalog entry of the spec's end-to-end example. -/
def exMaterial : Material :=
  { id := "1", sku := "FAB-001", name := "Cotton Fabric", supplier := "Fabric World",
    totalCost := 1500, qty := 10, unitOfMeasurement := "yards", unitPrice := 150 }

def exMaterials : List Material := [exMaterial]

/-- Product configuration of the spec's margin-mode end-to-end example. -/
def exProduct : ProductInputs :=
  { productName := "Custom T-Shirt", hourlyLaborRate := 40,
    materialCostRows := [{ id := "r1", materialId := some "1", qty := 1/2 }],
    packagingCostRows := [],
    laborCostRows := [{ id := "l1", taskName := "Production", hours := 1/2 }],
    otherFeeRows := [],
    calculationMode := CalculationMode.margin,
    targetMargin := 60, targetPrice := 0, discount := 10 }

/-- Product configuration of the spec's price-mode end-to-end example:
base cost 100, target price 80. -/
def exProductPrice : ProductInputs :=
  { exProduct with
      calculationMode := CalculationMode.price, targetPrice := 80, discount := 0,
      materialCostRows := [], laborCostRows := [],
      otherFeeRows := [{ id := "f1", feeName := "Overhead", qty := 1, unit := "unit",
                         unitPrice := 100 }] }

/-- A discount above 100 percent, for the unclamped-discount part of the spec. -/
def exProductBigDiscount : ProductInputs :=
  { exProductPrice with discount := 150 }

/-- A configuration whose single material row references an id absent from
the catalog. -/
def exGhostRow : ProductMaterialRow := { id := "g1", materialId := some "ghost", qty := 7 }

/-- Two material rows used to exhibit permutation invariance. -/
def exRowA : ProductMaterialRow := { id := "a", materialId := some "1", qty := 2 }

def exRowB : ProductMaterialRow := { id := "b", materialId := none, qty := 3 }

def exProductTwoRows : ProductInputs :=
  { exProduct with materialCostRows := [exRowA, exRowB] }

/-- A persisted-state-shaped input whose targetMargin is NaN, as malformed
local storage could supply. -/
def exNaNProduct : JS.ProductInputs :=
  { productName := "Custom T-Shirt", hourlyLaborRate := JS.JSNum.fin 40,
    materialCostRows := [], packagingCostRows := [],
    laborCostRows := [], otherFeeRows := [],
    calculationMode := CalculationMode.margin,
    targetMargin := JS.JSNum.nan, targetPrice := JS.JSNum.fin 0,
    discount := JS.JSNum.fin 0 }

example : (computePricing exProduct exMaterials).totalBaseCost = 95 := by
  norm_num +decide [computePricing, materialRowsCost, laborRowsCost, otherFeeRowsCost,
    getMaterialPrice, List.find?, exProduct, exMaterials, exMaterial]

example : (computePricing exProduct exMaterials).finalPrice = 475/2 := by
  norm_num +decide [computePricing, materialRowsCost, laborRowsCost, otherFeeRowsCost,
    getMaterialPrice, List.find?, exProduct, exMaterials, exMaterial]

example : (computePricing exProduct exMaterials).profit = 475/4 := by
  norm_num +decide [computePricing, materialRowsCost, laborRowsCost, otherFeeRowsCost,
    getMaterialPrice, List.find?, exProduct, exMaterials, exMaterial]

theorem materialRowsCost_eq_sum (materials : List Material) (rows : List ProductMaterialRow) :
    materialRowsCost materials rows
      = (rows.map (fun row => getMaterialPrice materials row.materialId * row.qty)).sum := by
  unfold materialRowsCost
  rw [List.sum_eq_foldl, List.foldl_map]

theorem laborRowsCost_eq_sum (hourlyLaborRate : ℚ) (rows : List LaborCostRow) :
    laborRowsCost hourlyLaborRate rows
      = (rows.map (fun row => row.hours * hourlyLaborRate)).sum := by
  unfold laborRowsCost
  rw [List.sum_eq_foldl, List.foldl_map]

theorem otherFeeRowsCost_eq_sum (rows : List OtherFeeRow) :
    otherFeeRowsCost rows = (rows.map (fun row => row.qty * row.unitPrice)).sum := by
  unfold otherFeeRowsCost
  rw [List.sum_eq_foldl, List.foldl_map]

/-- C1: in margin mode, with m = targetMargin / 100, the engine's finalPrice
equals totalBaseCost / (1 - m) when m < 1 and totalBaseCost when m ≥ 1, and
requiredMargin echoes the input targetMargin unchanged. -/
theorem margin_mode_final_price (p : ProductInputs) (materials : List Material)
    (h : p.calculationMode = CalculationMode.margin) :
    (p.targetMargin / 100 < 1 →
      (computePricing p materials).finalPrice
        = (computePricing p materials).totalBaseCost / (1 - p.targetMargin / 100))
  ∧ (1 ≤ p.targetMargin / 100 →
      (computePricing p materials).finalPrice = (computePricing p materials).totalBaseCost)
  ∧ (computePricing p materials).requiredMargin = p.targetMargin := by
  refine ⟨fun hm => ?_, fun hm => ?_, ?_⟩
  · simp only [computePricing, h]
    rw [if_pos hm]
  · simp only [computePricing, h]
    rw [if_neg (not_lt.mpr hm)]
  · simp only [computePricing, h]

/-- Witness for C1 at the spec's margin-mode end-to-end example. -/
theorem margin_mode_final_price_witness :
    (exProduct.targetMargin / 100 < 1 →
      (computePricing exProduct exMaterials).finalPrice
        = (computePricing exProduct exMaterials).totalBaseCost
            / (1 - exProduct.targetMargin / 100))
  ∧ (1 ≤ exProduct.targetMargin / 100 →
      (computePricing exProduct exMaterials).finalPrice
        = (computePricing exProduct exMaterials).totalBaseCost)
  ∧ (computePricing exProduct exMaterials).requiredMargin = exProduct.targetMargin :=
  margin_mode_final_price exProduct exMaterials rfl

/-- C2: in price mode the engine's finalPrice is the targetPrice verbatim;
requiredMargin is computed backward when the price is positive, is negative
when the base cost exceeds the price, and is 0 when the price is not
positive. -/
theorem price_mode_required_margin (p : ProductInputs) (materials : List Material)
    (h : p.calculationMode = CalculationMode.price) :
    (computePricing p materials).finalPrice = p.targetPrice
  ∧ (0 < p.targetPrice →
      (computePricing p materials).requiredMargin
        = ((p.targetPrice - (computePricing p materials).totalBaseCost) / p.targetPrice) * 100)
  ∧ (0 < p.targetPrice → p.targetPrice < (computePricing p materials).totalBaseCost →
      (computePricing p materials).requiredMargin < 0)
  ∧ (p.targetPrice ≤ 0 → (computePricing p materials).requiredMargin = 0) := by
  have hfp : (computePricing p materials).finalPrice = p.targetPrice := by
    simp only [computePricing, h]
  have hrm : (computePricing p materials).requiredMargin
      = if p.targetPrice > 0
        then ((p.targetPrice - (computePricing p materials).totalBaseCost) / p.targetPrice) * 100
        else 0 := by
    simp only [computePricing, h]
  refine ⟨hfp, fun hp => ?_, fun hp hc => ?_, fun hp => ?_⟩
  · rw [hrm, if_pos hp]
  · rw [hrm, if_pos hp]
    apply mul_neg_of_neg_of_pos
    · exact div_neg_of_neg_of_pos (by linarith) hp
    · norm_num
  · rw [hrm, if_neg (not_lt.mpr hp)]

/-- Witness for C2 at the spec's price-mode end-to-end example (base cost
100, target price 80, resulting margin -25). -/
theorem price_mode_required_margin_witness :
    (computePricing exProductPrice exMaterials).finalPrice = exProductPrice.targetPrice
  ∧ (0 < exProductPrice.targetPrice →
      (computePricing exProductPrice exMaterials).requiredMargin
        = ((exProductPrice.targetPrice
              - (computePricing exProductPrice exMaterials).totalBaseCost)
            / exProductPrice.targetPrice) * 100)
  ∧ (0 < exProductPrice.targetPrice →
      exProductPrice.targetPrice < (computePricing exProductPrice exMaterials).totalBaseCost →
      (computePricing exProductPrice exMaterials).requiredMargin < 0)
  ∧ (exProductPrice.targetPrice ≤ 0 →
      (computePricing exProductPrice exMaterials).requiredMargin = 0) :=
  price_mode_required_margin exProductPrice exMaterials rfl

/-- C4: the engine's bucket totals are the row-wise sums described by the
spec (one shared hourly rate for labor rows), and totalBaseCost is exactly
the sum of the four buckets. -/
theorem bucket_totals (p : ProductInputs) (materials : List Material) :
    (computePricing p materials).totalMaterialCost
      = (p.materialCostRows.map
          (fun row => getMaterialPrice materials row.materialId * row.qty)).sum
  ∧ (computePricing p materials).totalPackagingCost
      = (p.packagingCostRows.map
          (fun row => getMaterialPrice materials row.materialId * row.qty)).sum
  ∧ (computePricing p materials).totalLaborCost
      = (p.laborCostRows.map (fun row => row.hours * p.hourlyLaborRate)).sum
  ∧ (computePricing p materials).totalOtherFeesCost
      = (p.otherFeeRows.map (fun row => row.qty * row.unitPrice)).sum
  ∧ (computePricing p materials).totalBaseCost
      = (computePricing p materials).totalMaterialCost
        + (computePricing p materials).totalPackagingCost
        + (computePricing p materials).totalLaborCost
        + (computePricing p materials).totalOtherFeesCost := by
  refine ⟨?_, ?_, ?_, ?_, ?_⟩
  · show materialRowsCost materials p.materialCostRows = _
    exact materialRowsCost_eq_sum materials p.materialCostRows
  · show materialRowsCost materials p.packagingCostRows = _
    exact materialRowsCost_eq_sum materials p.packagingCostRows
  · show laborRowsCost p.hourlyLaborRate p.laborCostRows = _
    exact laborRowsCost_eq_sum p.hourlyLaborRate p.laborCostRows
  · show otherFeeRowsCost p.otherFeeRows = _
    exact otherFeeRowsCost_eq_sum p.otherFeeRows
  · rfl

/-- C5: discountedPrice is finalPrice times (1 - discount/100) with no
clamping (a discount above 100 drives a positive price negative), equals
finalPrice exactly at discount 0, and profit is discountedPrice minus
totalBaseCost, unclamped. -/
theorem discount_and_profit (p : ProductInputs) (materials : List Material) :
    (computePricing p materials).discountedPrice
      = (computePricing p materials).finalPrice * (1 - p.discount / 100)
  ∧ (p.discount = 0 →
      (computePricing p materials).discountedPrice = (computePricing p materials).finalPrice)
  ∧ (computePricing p materials).profit
      = (computePricing p materials).discountedPrice
        - (computePricing p materials).totalBaseCost
  ∧ (100 < p.discount → 0 < (computePricing p materials).finalPrice →
      (computePricing p materials).discountedPrice < 0) := by
  have hdp : (computePricing p materials).discountedPrice
      = (computePricing p materials).finalPrice * (1 - p.discount / 100) := rfl
  refine ⟨hdp, fun h0 => ?_, rfl, fun hd hfp => ?_⟩
  · rw [hdp, h0]
    norm_num
  · rw [hdp]
    apply mul_neg_of_pos_of_neg hfp
    linarith

/-- C3: a reference row whose materialId is null or matches no catalog id
resolves to unit price 0 and contributes exactly 0 to its bucket's total,
for any quantity: the bucket total with the row present equals the total
with it removed, so the row is processed (not skipped) and raises no
error. -/
theorem unresolved_reference_contributes_zero (materials : List Material)
    (row : ProductMaterialRow) (pre post : List ProductMaterialRow)
    (h : row.materialId = none ∨ ∀ m ∈ materials, some m.id ≠ row.materialId) :
    getMaterialPrice materials row.materialId = 0
  ∧ materialRowsCost materials (pre ++ row :: post)
      = materialRowsCost materials (pre ++ post) := by
  have hzero : getMaterialPrice materials row.materialId = 0 := by
    unfold getMaterialPrice
    have hfind : materials.find? (fun m => some m.id == row.materialId) = none := by
      rw [List.find?_eq_none]
      intro m hm
      rcases h with h | h
      · simp [h]
      · simpa using h m hm
    rw [hfind]
  refine ⟨hzero, ?_⟩
  rw [materialRowsCost_eq_sum, materialRowsCost_eq_sum]
  simp [hzero]

/-- Witness for C3: the ghost row (unmatched id, quantity 7) contributes
nothing after the example product's material rows. -/
theorem unresolved_reference_contributes_zero_witness :
    getMaterialPrice exMaterials exGhostRow.materialId = 0
  ∧ materialRowsCost exMaterials (exProduct.materialCostRows ++ exGhostRow :: [])
      = materialRowsCost exMaterials (exProduct.materialCostRows ++ []) :=
  unresolved_reference_contributes_zero exMaterials exGhostRow
    exProduct.materialCostRows [] (Or.inr (by decide))

theorem materialRowsCost_perm (materials : List Material)
    {r₁ r₂ : List ProductMaterialRow} (h : r₁.Perm r₂) :
    materialRowsCost materials r₁ = materialRowsCost materials r₂ := by
  rw [materialRowsCost_eq_sum, materialRowsCost_eq_sum]
  exact (h.map _).sum_eq

theorem laborRowsCost_perm (hourlyLaborRate : ℚ)
    {r₁ r₂ : List LaborCostRow} (h : r₁.Perm r₂) :
    laborRowsCost hourlyLaborRate r₁ = laborRowsCost hourlyLaborRate r₂ := by
  rw [laborRowsCost_eq_sum, laborRowsCost_eq_sum]
  exact (h.map _).sum_eq

theorem otherFeeRowsCost_perm {r₁ r₂ : List OtherFeeRow} (h : r₁.Perm r₂) :
    otherFeeRowsCost r₁ = otherFeeRowsCost r₂ := by
  rw [otherFeeRowsCost_eq_sum, otherFeeRowsCost_eq_sum]
  exact (h.map _).sum_eq

/-- C7: permuting the rows inside any of the four row lists leaves every
field of the engine's output exactly unchanged. -/
theorem output_invariant_under_row_permutation (materials : List Material) (p : ProductInputs)
    (a b : List ProductMaterialRow) (c : List LaborCostRow) (d : List OtherFeeRow)
    (ha : a.Perm p.materialCostRows) (hb : b.Perm p.packagingCostRows)
    (hc : c.Perm p.laborCostRows) (hd : d.Perm p.otherFeeRows) :
    computePricing
        { p with materialCostRows := a, packagingCostRows := b,
                 laborCostRows := c, otherFeeRows := d } materials
      = computePricing p materials := by
  have h1 := materialRowsCost_perm materials ha
  have h2 := materialRowsCost_perm materials hb
  have h3 := laborRowsCost_perm p.hourlyLaborRate hc
  have h4 := otherFeeRowsCost_perm hd
  simp [computePricing, h1, h2, h3, h4]

/-- Witness for C7: swapping the two material rows of the two-row example
does not change the output. -/
theorem output_invariant_under_row_permutation_witness :
    computePricing
        { exProductTwoRows with
            materialCostRows := [exRowB, exRowA],
            packagingCostRows := exProductTwoRows.packagingCostRows,
            laborCostRows := exProductTwoRows.laborCostRows,
            otherFeeRows := exProductTwoRows.otherFeeRows } exMaterials
      = computePricing exProductTwoRows exMaterials :=
  output_invariant_under_row_permutation exMaterials exProductTwoRows
    [exRowB, exRowA] exProductTwoRows.packagingCostRows
    exProductTwoRows.laborCostRows exProductTwoRows.otherFeeRows
    (List.Perm.swap exRowA exRowB [])
    (List.Perm.refl _) (List.Perm.refl _) (List.Perm.refl _)

/-- C8: the engine is deterministic — two invocations on identical
(product configuration, catalog) snapshots yield identical outputs; the
embedding is a pure function of its two inputs, so no invocation mutates
them. -/
theorem engine_deterministic (p₁ p₂ : ProductInputs) (ms₁ ms₂ : List Material)
    (hp : p₁ = p₂) (hm : ms₁ = ms₂) :
    computePricing p₁ ms₁ = computePricing p₂ ms₂ := by
  rw [hp, hm]

/-- Witness for C8 at the example snapshot. -/
theorem engine_deterministic_witness :
    computePricing exProduct exMaterials = computePricing exProduct exMaterials :=
  engine_deterministic exProduct exProduct exMaterials exMaterials rfl rfl

/-- C9: deleting a material by id removes it from the catalog and removes
every material- and packaging-row referencing it, keeps everything else,
and afterwards no reference row in either list carries the deleted id. -/
theorem delete_material_cascades (id : String) (materials : List Material) (p : ProductInputs) :
    (∀ m ∈ (deleteMaterial id materials p).1, m.id ≠ id)
  ∧ (∀ row ∈ (deleteMaterial id materials p).2.materialCostRows, row.materialId ≠ some id)
  ∧ (∀ row ∈ (deleteMaterial id materials p).2.packagingCostRows, row.materialId ≠ some id)
  ∧ (∀ m ∈ materials, m.id ≠ id → m ∈ (deleteMaterial id materials p).1)
  ∧ (∀ row ∈ p.materialCostRows, row.materialId ≠ some id →
        row ∈ (deleteMaterial id materials p).2.materialCostRows)
  ∧ (∀ row ∈ p.packagingCostRows, row.materialId ≠ some id →
        row ∈ (deleteMaterial id materials p).2.packagingCostRows) := by
  have hms : (deleteMaterial id materials p).1 = materials.filter (fun m => m.id != id) := rfl
  have hmr : (deleteMaterial id materials p).2.materialCostRows
      = p.materialCostRows.filter (fun row => row.materialId != some id) := rfl
  have hpr : (deleteMaterial id materials p).2.packagingCostRows
      = p.packagingCostRows.filter (fun row => row.materialId != some id) := rfl
  refine ⟨?_, ?_, ?_, ?_, ?_, ?_⟩
  · rw [hms]
    intro m hm
    simpa using (List.mem_filter.mp hm).2
  · rw [hmr]
    intro row hrow
    simpa using (List.mem_filter.mp hrow).2
  · rw [hpr]
    intro row hrow
    simpa using (List.mem_filter.mp hrow).2
  · rw [hms]
    intro m hm hne
    exact List.mem_filter.mpr ⟨hm, by simpa using hne⟩
  · rw [hmr]
    intro row hrow hne
    exact List.mem_filter.mpr ⟨hrow, by simpa using hne⟩
  · rw [hpr]
    intro row hrow hne
    exact List.mem_filter.mpr ⟨hrow, by simpa using hne⟩

/-- C10: in margin mode the engine's output is independent of targetPrice,
and in price mode it is independent of targetMargin. -/
theorem mode_noninterference (p : ProductInputs) (materials : List Material) (v w : ℚ) :
    (p.calculationMode = CalculationMode.margin →
      computePricing { p with targetPrice := v } materials = computePricing p materials)
  ∧ (p.calculationMode = CalculationMode.price →
      computePricing { p with targetMargin := w } materials = computePricing p materials) := by
  constructor
  · intro h
    simp [computePricing, h]
  · intro h
    simp [computePricing, h]

/-- Counterexample to C6 as stated: on an input whose targetMargin is NaN
(margin mode, empty rows), the engine's requiredMargin output is NaN — the
engine does not normalize the non-finite input before use, and the NaN
propagates into the CalculatedPricing output. -/
theorem nan_input_reaches_output :
    (JS.computePricing exNaNProduct []).requiredMargin = JS.JSNum.nan := rfl

/-- C6 amended: the engine itself performs no non-finite normalization, so
a non-finite numeric input can propagate into the CalculatedPricing output;
the normalization to 0 happens at the display boundary, where
formatCurrency maps every NaN or non-finite value to 0 and leaves every
finite value unchanged. -/
theorem nonfinite_normalized_at_display (v : JS.JSNum) :
    (JS.formatCurrencyValue v).isFinite = true
  ∧ (v.isFinite = true → JS.formatCurrencyValue v = v) := by
  cases v <;>
    simp [JS.formatCurrencyValue, JS.JSNum.isNaN, JS.JSNum.isFinite]

end Development
